import Mathlib

/-!
Shallow embedding of the Kegweb API client (src/python/kegbot/api/kbapi.py)
and verification of its specification.

Modelling conventions:
- JSON values decoded by kbjson.loads are modelled by the inductive JVal;
  a decoded JSON object is a list of key/value pairs and Python membership
  and .get are modelled by List.lookup.  JSON null decodes to Python None,
  which we model explicitly where the source calls .get.
- Raised exceptions are modelled as explicit result constructors
  (DecodeResult / Except), one per distinct Python exception class family.
- The process-global gflags FLAGS object is modelled by the structure
  FLAGS_t, passed explicitly where the source reads it.
-/

/-- A decoded JSON value, as produced by kbjson.loads. -/
inductive JVal where
  | jnull
  | jbool (b : Bool)
  | jnum (n : Int)
  | jstr (s : String)
  | jarr (elems : List JVal)
  | jobj (fields : List (String × JVal))

/-- Python truthiness of a decoded JSON value (None, "", 0, [], {} are falsy). -/
def JVal.truthy : JVal → Bool
  | .jnull => false
  | .jbool b => b
  | .jnum n => n != 0
  | .jstr s => s != ""
  | .jarr l => !l.isEmpty
  | .jobj f => !f.isEmpty

/-- The error taxonomy: the base class Error (kind Generic) and its
subclasses in kbapi.py. -/
inductive ErrorKind where
  | Generic
  | NotFoundError
  | ServerError
  | BadRequestError
  | NoAuthTokenError
  | BadApiKeyError
  | PermissionDeniedError
deriving DecidableEq

/-- The HTTP_CODE class attribute of each error class. -/
def ErrorKind.HTTP_CODE : ErrorKind → Nat
  | .Generic => 400
  | .NotFoundError => 404
  | .ServerError => 500
  | .BadRequestError => 401
  | .NoAuthTokenError => 401
  | .BadApiKeyError => 401
  | .PermissionDeniedError => 401

/-- The docstring of each error class (used by Error.Message as the default
summary). -/
def ErrorKind.docstring : ErrorKind → String
  | .Generic => "An error occurred."
  | .NotFoundError => "The requested object could not be found."
  | .ServerError => "The server had a problem fulfilling your request."
  | .BadRequestError => "The request was incompleted or malformed."
  | .NoAuthTokenError => "An api_key is required."
  | .BadApiKeyError => "The api_key given is invalid."
  | .PermissionDeniedError => "The api_key given does not have permission for this resource."

/-- First line of a string: models m.split with a newline separator and
maxsplit one, taking element 0, as done in Error.Message — the characters
before the first newline (the whole string when there is none). -/
def firstLine (s : String) : String := String.mk (s.data.takeWhile fun c => c != '\n')

/-- An instance of Error (or a subclass): its class, and the message argument
it was constructed with.  The message may be any decoded JSON value (the
source passes err.get straight to the constructor); Python None is `none`. -/
structure ApiError where
  kind : ErrorKind
  message : Option JVal

/-- Error.Message from kbapi.py: returns self.message when truthy, else the
first line of the class docstring. -/
def ApiError.Message (e : ApiError) : JVal :=
  match e.message with
  | some m => if m.truthy then m else JVal.jstr (firstLine e.kind.docstring)
  | none => JVal.jstr (firstLine e.kind.docstring)

/-- MAP_NAME_TO_EXCEPTION from kbapi.py: built from Error.__subclasses__(),
so it maps each subclass name to that subclass; the base class itself is not
a key. -/
def MAP_NAME_TO_EXCEPTION : List (String × ErrorKind) :=
  [("NotFoundError", ErrorKind.NotFoundError),
   ("ServerError", ErrorKind.ServerError),
   ("BadRequestError", ErrorKind.BadRequestError),
   ("NoAuthTokenError", ErrorKind.NoAuthTokenError),
   ("BadApiKeyError", ErrorKind.BadApiKeyError),
   ("PermissionDeniedError", ErrorKind.PermissionDeniedError)]

/-- The code value handed to ErrorCodeToException: either the decoded JSON
value of the envelope field named code, or (when that field is absent) the
integer HTTP status code substituted by decode_response. -/
inductive ErrCode where
  | fromJson (v : JVal)
  | fromStatus (n : Nat)

/-- A Python dict lookup with string keys only ever hits when the probe is a
string: any non-string code (a number, null, or the integer status fallback)
misses every key of MAP_NAME_TO_EXCEPTION. -/
def codeName : ErrCode → Option String
  | .fromJson (JVal.jstr s) => some s
  | .fromJson _ => none
  | .fromStatus _ => none

/-- ErrorCodeToException from kbapi.py: MAP_NAME_TO_EXCEPTION.get with the
base class Error as the default, applied to the message. -/
def ErrorCodeToException (code : ErrCode) (message : Option JVal) : ApiError :=
  { kind := ((codeName code).bind fun n => MAP_NAME_TO_EXCEPTION.lookup n).getD ErrorKind.Generic,
    message := message }

/-- Outcome of decode_response: the returned envelope, a raised Error
subclass instance, the raised ValueError, or the AttributeError crash that
occurs when the value under the error key is not an object (so it has no
.get method). -/
inductive DecodeResult where
  | ok (envelope : List (String × JVal))
  | apiError (e : ApiError)
  | valueError (msg : String)
  | attrCrash

/-- True exactly when the result is a raised taxonomy error. -/
def DecodeResult.isApiError : DecodeResult → Bool
  | .apiError _ => true
  | _ => false

/-- The kind of the raised taxonomy error, if any. -/
def DecodeResult.errorKind? : DecodeResult → Option ErrorKind
  | .apiError e => some e.kind
  | _ => none

/-- decode_response from kbapi.py, for a response whose body text parses as
a JSON object (kbjson.loads is an external collaborator; non-object bodies
are outside every claim).  Mirrors the source: if the error key is present,
build the exception from err.get of code (status code as the fallback) and
err.get of message (None as the fallback, and JSON null also decodes to
None); else return the whole dict when object or objects is present; else
raise ValueError. -/
def decode_response (status_code : Nat) (response_dict : List (String × JVal)) : DecodeResult :=
  match response_dict.lookup "error" with
  | some (JVal.jobj err) =>
    let code : ErrCode :=
      match err.lookup "code" with
      | some v => ErrCode.fromJson v
      | none => ErrCode.fromStatus status_code
    let message : Option JVal :=
      match err.lookup "message" with
      | some JVal.jnull => none
      | some v => some v
      | none => none
    DecodeResult.apiError (ErrorCodeToException code message)
  | some _ => DecodeResult.attrCrash
  | none =>
    if (response_dict.lookup "object").isSome || (response_dict.lookup "objects").isSome then
      DecodeResult.ok response_dict
    else
      DecodeResult.valueError "Invalid response from server: missing result or error"

/-- The process-global gflags FLAGS object, restricted to the three flags
kbapi.py defines.  The timeout is an exact decimal, modelled as a rational. -/
structure FLAGS_t where
  api_url : String
  api_key : String
  api_timeout : ℚ

/-- The DEFINE defaults in kbapi.py (with no pykeg settings module present,
the external-collaborator case the spec fixes). -/
def defaultFLAGS : FLAGS_t :=
  { api_url := "http://localhost:8000/api/", api_key := "", api_timeout := 10 }

/-- The client instance state: exactly the two attributes Client.__init__
assigns.  The timeout is deliberately absent, as in the source. -/
structure Client where
  _api_url : String
  _api_key : String

/-- Client.__init__ from kbapi.py: each argument defaults to the
corresponding global flag when None. -/
def Client.init (FLAGS : FLAGS_t) (api_url : Option String) (api_key : Option String) : Client :=
  { _api_url := api_url.getD FLAGS.api_url, _api_key := api_key.getD FLAGS.api_key }

/-- Client.SetAuthToken from kbapi.py: assigns self._api_key only. -/
def Client.SetAuthToken (c : Client) (api_key : String) : Client :=
  { c with _api_key := api_key }

/-- Is this character the slash stripped by _GetURL? -/
def slashP (c : Char) : Bool := c == '/'

/-- Python rstrip with a slash argument, on the character list of a string:
removes every trailing slash. -/
def rstripSlashData (l : List Char) : List Char :=
  (l.reverse.dropWhile slashP).reverse

/-- Python strip with a slash argument, on the character list of a string:
removes every leading and every trailing slash. -/
def stripSlashData (l : List Char) : List Char :=
  ((l.dropWhile slashP).reverse.dropWhile slashP).reverse

/-- Client._GetURL from kbapi.py: percent-s formatting of the rstripped base
and the stripped endpoint around a single slash, i.e. their concatenation. -/
def Client._GetURL (c : Client) (endpoint : String) : String :=
  String.mk (rstripSlashData c._api_url.data ++ '/' :: stripSlashData endpoint.data)

/-- The headers dict built by Client._FetchResponse and passed to every
requests.get and requests.post call. -/
def _FetchResponse_headers (c : Client) : List (String × String) :=
  [("X-Kegbot-Api-Key", c._api_key)]

/-- The timeout argument passed by Client._FetchResponse to every
requests.get and requests.post call: the global flag read at request time;
the client instance carries no timeout. -/
def _FetchResponse_timeout (_c : Client) (FLAGS : FLAGS_t) : ℚ :=
  FLAGS.api_timeout

/-- What the HTTP library call inside _FetchResponse can come back with: an
HTTP response (whose body parses as a JSON object; the decoder's domain for
every claim), or a connection-level failure, for which requests raises
ConnectionError or Timeout. -/
inductive TransportOutcome where
  | response (status : Nat) (body : List (String × JVal))
  | connectionFailure

/-- Result of _FetchResponse as seen by its caller. -/
inductive FetchResult where
  | decoded (r : DecodeResult)
  | transportError

/-- True exactly when the fetch raised a taxonomy error of kind ServerError. -/
def FetchResult.raisesTaxonomyServerError : FetchResult → Bool
  | .decoded (.apiError e) => e.kind = ErrorKind.ServerError
  | _ => false

/-- Client._FetchResponse from kbapi.py, as a function of the transport
outcome: the body of the method is a bare requests call followed by
decode_response, with no try/except anywhere in _FetchResponse, DoGET or
DoPOST, so a connection-level exception propagates to the caller unchanged. -/
def _FetchResponse_result : TransportOutcome → FetchResult
  | .response status body => .decoded (decode_response status body)
  | .connectionFailure => .transportError

/-- A value placed in a POST form-data dict by the typed client methods. -/
inductive FormVal where
  | str (s : String)
  | int (n : Int)
  | bool (b : Bool)

/-- Client._Encode from kbapi.py: unicode of the value, encoded as UTF-8
text (Lean strings are Unicode text; the byte encoding is representation).
Python unicode renders True with a capital letter.  unicode is a builtin,
so this method works when called — but its only reference in the module is
the generator inside the dead encoder below. -/
def _Encode : FormVal → String
  | .str s => s
  | .int n => toString n
  | .bool b => if b then "True" else "False"

/-- Outcome of a Client._EncodePostData call: the None return for an empty
dict, or the NameError raised on the urlencode call. -/
inductive EncodeResult where
  | noBody
  | nameErrorCrash

/-- Client._EncodePostData from kbapi.py: returns None for a falsy (empty)
dict; otherwise it evaluates the call urlencode(...), and the name
urlencode is bound nowhere in the module (it is never imported), so the
callee lookup raises NameError before the argument dict — which would have
dropped None entries and applied _Encode — is even built.  The method is
also dead code: no call site exists in the module. -/
def _EncodePostData (post_data : List (String × Option FormVal)) : EncodeResult :=
  if post_data.isEmpty then EncodeResult.noBody else EncodeResult.nameErrorCrash

/-- The data argument Client._FetchResponse passes to requests.post: the
raw post_data dict itself, unencoded — _EncodePostData is never called, so
any form encoding happens inside the external HTTP library, not in this
module.  A falsy (empty or absent) dict selects the GET branch instead, so
no body is sent. -/
def _FetchResponse_form_body (post_data : List (String × Option FormVal)) :
    Option (List (String × Option FormVal)) :=
  if post_data.isEmpty then none else some post_data

/-- The post_data dict built by Client.RecordDrink from kbapi.py, in source
order.  pour_time is the epoch-seconds integer of the datetime argument
(int of strftime with the seconds format), none when the argument is None
(datetime objects are always truthy); now is the current time in epoch
seconds, passed explicitly here. -/
def RecordDrink_post_data (tap_name : String) (ticks : Int)
    (volume_ml : Option Int) (username : Option String) (pour_time : Option Int)
    (duration : Int) (auth_token : Option String) (spilled : Bool) (shout : String)
    (now : Int) : List (String × FormVal) :=
  [("tap_name", FormVal.str tap_name), ("ticks", FormVal.int ticks)]
  ++ (match volume_ml with | some v => [("volume_ml", FormVal.int v)] | none => [])
  ++ (match username with | some u => [("username", FormVal.str u)] | none => [])
  ++ (if 0 < duration then [("duration", FormVal.int duration)] else [])
  ++ (match auth_token with | some t => [("auth_token", FormVal.str t)] | none => [])
  ++ (if spilled then [("spilled", FormVal.bool true)] else [])
  ++ (if shout = "" then [] else [("shout", FormVal.str shout)])
  ++ (match pour_time with
      | some t => [("pour_time", FormVal.int t), ("now", FormVal.int now)]
      | none => [])

/-- The error kind carried by an Except outcome, if any. -/
def Except.apiKind : Except ApiError (List (String × JVal)) → Option ErrorKind
  | .ok _ => none
  | .error e => some e.kind

/-- Client.GetToken from kbapi.py, as a function of the outcome of its
DoGET call: the try/except re-raises a caught ServerError as a
NotFoundError constructed on the caught exception (modelled by carrying the
caught message payload); every other outcome passes through.  The except
clause names the ServerError class, which has no subclasses. -/
def GetToken_handle (outcome : Except ApiError (List (String × JVal))) :
    Except ApiError (List (String × JVal)) :=
  match outcome with
  | .ok v => .ok v
  | .error e =>
    if e.kind = ErrorKind.ServerError then
      .error { kind := ErrorKind.NotFoundError, message := e.message }
    else
      .error e

/-- C1, counterexample: a body that parses as a JSON object and has the
error key, but whose error value is not itself an object, crashes with an
AttributeError on err.get rather than raising a taxonomy error, so the
stated trichotomy does not cover it. -/
theorem decode_response_nonobject_error_counterexample :
    (List.lookup "error" [("error", JVal.jnum 5)]).isSome = true
    ∧ decode_response 200 [("error", JVal.jnum 5)] = DecodeResult.attrCrash
    ∧ (decode_response 200 [("error", JVal.jnum 5)]).isApiError = false := by
  refine ⟨rfl, rfl, rfl⟩

/-- C1 (amended): for every body parsing as a JSON object whose error value,
when present, is itself a JSON object, decode_response is a trichotomy: an
error object raises a taxonomy error; otherwise object or objects returns
the whole envelope unchanged; otherwise the protocol-violation ValueError
is raised. -/
theorem decode_response_trichotomy (status : Nat) (dict : List (String × JVal)) :
    (∀ err, dict.lookup "error" = some (JVal.jobj err) →
      (decode_response status dict).isApiError = true)
    ∧ (dict.lookup "error" = none →
        ((dict.lookup "object").isSome || (dict.lookup "objects").isSome) = true →
        decode_response status dict = DecodeResult.ok dict)
    ∧ (dict.lookup "error" = none →
        ((dict.lookup "object").isSome || (dict.lookup "objects").isSome) = false →
        decode_response status dict
          = DecodeResult.valueError "Invalid response from server: missing result or error") := by
  refine ⟨?_, ?_, ?_⟩
  · intro err h
    simp [decode_response, h, DecodeResult.isApiError]
  · intro h hobj
    simp [decode_response, h, hobj]
  · intro h hobj
    simp [decode_response, h, hobj]

/-- C1, witness: the trichotomy evaluated on three concrete envelopes,
including the empty object from the spec example. -/
theorem decode_response_trichotomy_witness :
    (decode_response 200 [("error", JVal.jobj [])]).isApiError = true
    ∧ decode_response 200 [("object", JVal.jnum 1)] = DecodeResult.ok [("object", JVal.jnum 1)]
    ∧ decode_response 200 []
        = DecodeResult.valueError "Invalid response from server: missing result or error" := by
  refine ⟨(decode_response_trichotomy 200 _).1 [] rfl,
    (decode_response_trichotomy 200 _).2.1 rfl rfl,
    (decode_response_trichotomy 200 _).2.2 rfl rfl⟩

/-- C10: when the error object lacks a code field, the fallback code is the
numeric HTTP status, which matches no string key of MAP_NAME_TO_EXCEPTION,
so the raised error is the Generic base kind for every status code. -/
theorem missing_code_yields_generic (status : Nat) (dict err : List (String × JVal))
    (h : dict.lookup "error" = some (JVal.jobj err))
    (hc : err.lookup "code" = none) :
    (decode_response status dict).errorKind? = some ErrorKind.Generic
    ∧ ((codeName (ErrCode.fromStatus status)).bind
        fun n => MAP_NAME_TO_EXCEPTION.lookup n) = none := by
  constructor
  · simp [decode_response, h, hc, DecodeResult.errorKind?, ErrorCodeToException, codeName]
  · rfl

/-- C10, witness: a 404 response whose error object is empty raises the
Generic kind, not NotFound. -/
theorem missing_code_yields_generic_witness :
    (decode_response 404 [("error", JVal.jobj [])]).errorKind? = some ErrorKind.Generic := by
  exact (missing_code_yields_generic 404 [("error", JVal.jobj [])] [] rfl rfl).1

/-- C2, counterexample: a server message that is present but empty is not
carried by the raised error; Error.Message tests Python truthiness, so the
empty string is replaced by the default summary of the kind. -/
theorem empty_message_not_carried_counterexample :
    decode_response 500
        [("error", JVal.jobj [("code", JVal.jstr "NotFoundError"), ("message", JVal.jstr "")])]
      = DecodeResult.apiError { kind := ErrorKind.NotFoundError, message := some (JVal.jstr "") }
    ∧ ApiError.Message { kind := ErrorKind.NotFoundError, message := some (JVal.jstr "") }
        = JVal.jstr "The requested object could not be found."
    ∧ ApiError.Message { kind := ErrorKind.NotFoundError, message := some (JVal.jstr "") }
        ≠ JVal.jstr "" := by
  refine ⟨rfl, rfl, ?_⟩
  intro hcontra
  injection hcontra with hs
  exact absurd hs (by decide)

/-- C2 (amended): for every error envelope, the kind is the taxonomy image
of the string code with Generic for unrecognized codes, and the raised
error reports the server message when present and non-empty, else the first
line of the kind docstring. -/
theorem error_envelope_kind_and_message (status : Nat)
    (dict err : List (String × JVal)) (e : ApiError)
    (h : dict.lookup "error" = some (JVal.jobj err))
    (hd : decode_response status dict = DecodeResult.apiError e) :
    (∀ s, err.lookup "code" = some (JVal.jstr s) →
      e.kind = (MAP_NAME_TO_EXCEPTION.lookup s).getD ErrorKind.Generic)
    ∧ (∀ m, err.lookup "message" = some (JVal.jstr m) → m ≠ "" →
        e.Message = JVal.jstr m)
    ∧ (err.lookup "message" = none →
        e.Message = JVal.jstr (firstLine e.kind.docstring)) := by
  simp only [decode_response, h, DecodeResult.apiError.injEq] at hd
  subst hd
  refine ⟨?_, ?_, ?_⟩
  · intro s hs
    simp [ErrorCodeToException, hs, codeName]
  · intro m hm hne
    simp [ErrorCodeToException, hm, ApiError.Message, JVal.truthy, hne]
  · intro hm
    simp [ErrorCodeToException, hm, ApiError.Message]

/-- C2, witness: the spec example, an error envelope with the unrecognized
code UnknownThing and no message, raises the Generic kind carrying the
Generic default summary. -/
theorem error_envelope_kind_and_message_witness :
    decode_response 200 [("error", JVal.jobj [("code", JVal.jstr "UnknownThing")])]
      = DecodeResult.apiError { kind := ErrorKind.Generic, message := none }
    ∧ ({ kind := ErrorKind.Generic, message := none } : ApiError).kind = ErrorKind.Generic
    ∧ ApiError.Message { kind := ErrorKind.Generic, message := none }
        = JVal.jstr "An error occurred." := by
  have h := error_envelope_kind_and_message 200
    [("error", JVal.jobj [("code", JVal.jstr "UnknownThing")])]
    [("code", JVal.jstr "UnknownThing")]
    { kind := ErrorKind.Generic, message := none } rfl rfl
  exact ⟨rfl, by rw [h.1 "UnknownThing" rfl]; rfl, by rw [h.2.2 rfl]; rfl⟩

/-- C3: evaluation at the failing input — on a connection-level failure the
fetch pipeline propagates the low-level transport exception unchanged and
raises no taxonomy ServerError, although the DoGET and DoPOST docstrings
promise one. -/
theorem connection_failure_propagates_transport_error :
    _FetchResponse_result TransportOutcome.connectionFailure = FetchResult.transportError
    ∧ (_FetchResponse_result TransportOutcome.connectionFailure).raisesTaxonomyServerError
        = false := by
  refine ⟨rfl, rfl⟩

/-- C6: GetToken turns a ServerError-kind failure of its DoGET into a
NotFound-kind failure, passes every other error kind through unchanged, and
never lets a ServerError kind reach its caller. -/
theorem getToken_maps_server_error_to_not_found
    (outcome : Except ApiError (List (String × JVal))) :
    (∀ e, outcome = Except.error e → e.kind = ErrorKind.ServerError →
      (GetToken_handle outcome).apiKind = some ErrorKind.NotFoundError)
    ∧ (∀ e, outcome = Except.error e → e.kind ≠ ErrorKind.ServerError →
        GetToken_handle outcome = Except.error e)
    ∧ (GetToken_handle outcome).apiKind ≠ some ErrorKind.ServerError := by
  refine ⟨?_, ?_, ?_⟩
  · rintro e rfl hk
    simp [GetToken_handle, hk, Except.apiKind]
  · rintro e rfl hk
    simp [GetToken_handle, hk]
  · rcases outcome with e | v
    · by_cases hk : e.kind = ErrorKind.ServerError
      · simp [GetToken_handle, hk, Except.apiKind]
      · simp [GetToken_handle, hk, Except.apiKind]
    · simp [GetToken_handle, Except.apiKind]

/-- C6, witness: a ServerError-kind GET failure surfaces as NotFound, and a
BadApiKey-kind failure passes through unchanged. -/
theorem getToken_maps_server_error_to_not_found_witness :
    (GetToken_handle (Except.error { kind := ErrorKind.ServerError, message := none })).apiKind
      = some ErrorKind.NotFoundError
    ∧ GetToken_handle (Except.error { kind := ErrorKind.BadApiKeyError, message := none })
        = Except.error { kind := ErrorKind.BadApiKeyError, message := none } := by
  refine ⟨(getToken_maps_server_error_to_not_found _).1 _ rfl rfl,
    (getToken_maps_server_error_to_not_found _).2.1 _ rfl (by decide)⟩

/-- C7: every request carries the X-Kegbot-Api-Key header bound to the
stored key, including the empty key; SetAuthToken rebinds the stored key
and leaves the base URL untouched, so subsequent requests carry the new
key. -/
theorem auth_header_and_setAuthToken_frame (c : Client) (k : String) :
    _FetchResponse_headers c = [("X-Kegbot-Api-Key", c._api_key)]
    ∧ _FetchResponse_headers (c.SetAuthToken k) = [("X-Kegbot-Api-Key", k)]
    ∧ (c.SetAuthToken k)._api_url = c._api_url
    ∧ (c.SetAuthToken k)._api_key = k
    ∧ _FetchResponse_headers { _api_url := c._api_url, _api_key := "" }
        = [("X-Kegbot-Api-Key", "")] := by
  refine ⟨rfl, rfl, rfl, rfl, rfl⟩

/-- C9, counterexample: the very same client instance, constructed once from
the default flags, is issued requests with two different timeouts when the
global flag changes between requests — the timeout is not a per-instance
configuration fixed at construction. -/
theorem timeout_not_per_client_counterexample :
    _FetchResponse_timeout (Client.init defaultFLAGS none none)
        { defaultFLAGS with api_timeout := 5 }
      ≠ _FetchResponse_timeout (Client.init defaultFLAGS none none) defaultFLAGS := by
  norm_num [_FetchResponse_timeout, defaultFLAGS]

/-- C9 (amended): the request timeout is the process-global flag read at
request time — identical for every client instance, equal to the current
flag value, with default 10 seconds — and a client instance records no
timeout of its own (construction consumes only the URL and key). -/
theorem timeout_is_global_flag (c c2 : Client) (FLAGS : FLAGS_t)
    (api_url api_key : Option String) :
    _FetchResponse_timeout c FLAGS = FLAGS.api_timeout
    ∧ _FetchResponse_timeout c FLAGS = _FetchResponse_timeout c2 FLAGS
    ∧ defaultFLAGS.api_timeout = 10
    ∧ Client.init FLAGS api_url api_key
        = { _api_url := api_url.getD FLAGS.api_url, _api_key := api_key.getD FLAGS.api_key } := by
  refine ⟨rfl, rfl, rfl, rfl⟩

/-- C8: evaluation at the failing input — the form dict of the default
RecordDrink call.  The module's own encoder raises NameError on it (and on
every non-empty dict, even one with a None entry to drop), because
urlencode is never imported; and the POST path never calls the encoder
anyway: _FetchResponse passes the raw, unencoded dict to the external HTTP
library, so no entry is dropped or stringified by this module.  Only the
empty dict avoids the crash, returning None before reaching urlencode. -/
theorem encodePostData_crashes_and_is_bypassed :
    _EncodePostData [("tap_name", some (FormVal.str "kegboard.flow0")),
        ("ticks", some (FormVal.int 2200))] = EncodeResult.nameErrorCrash
    ∧ _EncodePostData [("a", some (FormVal.str "x")), ("b", none)]
        = EncodeResult.nameErrorCrash
    ∧ _EncodePostData [] = EncodeResult.noBody
    ∧ _FetchResponse_form_body [("tap_name", some (FormVal.str "kegboard.flow0")),
        ("ticks", some (FormVal.int 2200))]
      = some [("tap_name", some (FormVal.str "kegboard.flow0")),
        ("ticks", some (FormVal.int 2200))] := by
  refine ⟨rfl, rfl, rfl, rfl⟩

/-- Appending a slash to a list of characters does not change its
all-trailing-slash strip. -/
theorem rstripSlashData_append_slash (l : List Char) :
    rstripSlashData (l ++ ['/']) = rstripSlashData l := by
  simp [rstripSlashData, List.reverse_append, List.dropWhile_cons, slashP]

/-- A leading slash is removed by dropWhile on the slash predicate. -/
theorem dropWhile_slash_cons (l : List Char) :
    List.dropWhile slashP ('/' :: l) = List.dropWhile slashP l := by
  simp [List.dropWhile_cons, slashP]

/-- Prepending a slash does not change the both-ends strip. -/
theorem stripSlashData_cons_slash (l : List Char) :
    stripSlashData ('/' :: l) = stripSlashData l := by
  simp [stripSlashData, dropWhile_slash_cons]

/-- Appending a slash does not change the both-ends strip. -/
theorem stripSlashData_append_slash (l : List Char) :
    stripSlashData (l ++ ['/']) = stripSlashData l := by
  unfold stripSlashData
  rw [List.dropWhile_append]
  split_ifs with h
  · rw [List.isEmpty_iff] at h
    rw [h]
    simp [List.dropWhile_cons, slashP]
  · rw [List.reverse_append]
    simp [List.dropWhile_cons, slashP]

/-- dropWhile on the slash predicate is the identity when the head is not a
slash. -/
theorem dropWhile_slash_eq_self (l : List Char) (h : l.head? ≠ some '/') :
    List.dropWhile slashP l = l := by
  cases l with
  | nil => rfl
  | cons a t =>
    have ha : a ≠ '/' := by
      intro hc
      exact h (by rw [hc]; rfl)
    rw [List.dropWhile_cons]
    simp [slashP, ha]

/-- Modelled from the spec, for comparison with the source _GetURL: strip
exactly one trailing slash from the base and one leading and one trailing
slash from the endpoint, then join with a single slash. -/
def specStripOneTrailing (s : String) : String :=
  if s.data.getLast? = some '/' then String.mk s.data.dropLast else s

/-- Modelled from the spec: strip exactly one leading slash. -/
def specStripOneLeading (s : String) : String :=
  match s.data with
  | '/' :: rest => String.mk rest
  | _ => s

/-- Modelled from the spec: the exactly-one-slash joining rule. -/
def specJoinURL (base endpoint : String) : String :=
  specStripOneTrailing base ++ "/" ++ specStripOneLeading (specStripOneTrailing endpoint)

/-- C4, counterexample: on a base with two trailing slashes the source
strips both, while the spec rule of stripping exactly one keeps one, so the
two disagree. -/
theorem getURL_strip_exactly_one_counterexample :
    Client._GetURL { _api_url := "http://x/api//", _api_key := "" } "taps" = "http://x/api/taps"
    ∧ specJoinURL "http://x/api//" "taps" = "http://x/api//taps"
    ∧ ("http://x/api/taps" : String) ≠ "http://x/api//taps" := by
  refine ⟨by decide, by decide, by decide⟩

/-- C4 (amended): the request URL strips all trailing slashes from the base
and all leading and trailing slashes from the endpoint before joining with
a single slash: the two spec examples hold, extra slashes at the stripped
ends never change the result, and ends that carry no slash are preserved
verbatim. -/
theorem getURL_strips_all_slashes :
    Client._GetURL { _api_url := "http://x/api/", _api_key := "" } "/taps" = "http://x/api/taps"
    ∧ Client._GetURL { _api_url := "http://x/api", _api_key := "" } "taps/" = "http://x/api/taps"
    ∧ (∀ base key ep, Client._GetURL { _api_url := base ++ "/", _api_key := key } ep
        = Client._GetURL { _api_url := base, _api_key := key } ep)
    ∧ (∀ base key ep, Client._GetURL { _api_url := base, _api_key := key } ("/" ++ ep)
        = Client._GetURL { _api_url := base, _api_key := key } ep)
    ∧ (∀ base key ep, Client._GetURL { _api_url := base, _api_key := key } (ep ++ "/")
        = Client._GetURL { _api_url := base, _api_key := key } ep)
    ∧ (∀ base key ep, base.data.getLast? ≠ some '/' → ep.data.head? ≠ some '/' →
        ep.data.getLast? ≠ some '/' →
        Client._GetURL { _api_url := base, _api_key := key } ep = base ++ "/" ++ ep) := by
  refine ⟨by decide, by decide, ?_, ?_, ?_, ?_⟩
  · intro base key ep
    have hdata : (base ++ "/").data = base.data ++ ['/'] := String.data_append base "/"
    simp only [Client._GetURL, hdata, rstripSlashData_append_slash]
  · intro base key ep
    have hdata : ("/" ++ ep).data = '/' :: ep.data := String.data_append "/" ep
    simp only [Client._GetURL, hdata, stripSlashData_cons_slash]
  · intro base key ep
    have hdata : (ep ++ "/").data = ep.data ++ ['/'] := String.data_append ep "/"
    simp only [Client._GetURL, hdata, stripSlashData_append_slash]
  · intro base key ep hb he1 he2
    have h1 : rstripSlashData base.data = base.data := by
      unfold rstripSlashData
      rw [dropWhile_slash_eq_self base.data.reverse (by rw [List.head?_reverse]; exact hb)]
      exact List.reverse_reverse base.data
    have h2 : stripSlashData ep.data = ep.data := by
      unfold stripSlashData
      rw [dropWhile_slash_eq_self ep.data he1]
      rw [dropWhile_slash_eq_self ep.data.reverse (by rw [List.head?_reverse]; exact he2)]
      exact List.reverse_reverse ep.data
    obtain ⟨lb⟩ := base
    obtain ⟨le⟩ := ep
    simp only [Client._GetURL] at *
    rw [h1, h2]
    show String.mk (lb ++ '/' :: le) = String.mk ((lb ++ ['/']) ++ le)
    rw [List.append_assoc]
    rfl

/-- C4, witness: the no-slash case evaluated at a concrete base and
endpoint. -/
theorem getURL_strips_all_slashes_witness :
    Client._GetURL { _api_url := "http://x/api", _api_key := "" } "taps"
      = "http://x/api" ++ "/" ++ "taps" := by
  exact getURL_strips_all_slashes.2.2.2.2.2 "http://x/api" "" "taps"
    (by decide) (by decide) (by decide)



set_option maxHeartbeats 64000000 in
/-- C5: the RecordDrink form body always carries tap_name and ticks;
volume_ml, username and auth_token exactly when provided; duration exactly
when positive; spilled exactly when true; shout exactly when non-empty;
pour_time and now exactly when a pour time is given — and nothing else, as
the key list shows; the default call sends exactly tap_name and ticks. -/
theorem recordDrink_form_fields (tap_name : String) (ticks : Int) (volume_ml : Option Int)
    (username : Option String) (pour_time : Option Int) (duration : Int)
    (auth_token : Option String) (spilled : Bool) (shout : String) (now : Int) :
    (RecordDrink_post_data tap_name ticks volume_ml username pour_time duration
        auth_token spilled shout now).map Prod.fst
      = ["tap_name", "ticks"]
        ++ (if volume_ml.isSome then ["volume_ml"] else [])
        ++ (if username.isSome then ["username"] else [])
        ++ (if 0 < duration then ["duration"] else [])
        ++ (if auth_token.isSome then ["auth_token"] else [])
        ++ (if spilled then ["spilled"] else [])
        ++ (if shout = "" then [] else ["shout"])
        ++ (if pour_time.isSome then ["pour_time", "now"] else [])
    ∧ (RecordDrink_post_data tap_name ticks volume_ml username pour_time duration
        auth_token spilled shout now).lookup "tap_name" = some (FormVal.str tap_name)
    ∧ (RecordDrink_post_data tap_name ticks volume_ml username pour_time duration
        auth_token spilled shout now).lookup "ticks" = some (FormVal.int ticks)
    ∧ (RecordDrink_post_data tap_name ticks volume_ml username pour_time duration
        auth_token spilled shout now).lookup "volume_ml" = volume_ml.map FormVal.int
    ∧ (RecordDrink_post_data tap_name ticks volume_ml username pour_time duration
        auth_token spilled shout now).lookup "username" = username.map FormVal.str
    ∧ (RecordDrink_post_data tap_name ticks volume_ml username pour_time duration
        auth_token spilled shout now).lookup "duration" = (if 0 < duration then some (FormVal.int duration) else none)
    ∧ (RecordDrink_post_data tap_name ticks volume_ml username pour_time duration
        auth_token spilled shout now).lookup "auth_token" = auth_token.map FormVal.str
    ∧ (RecordDrink_post_data tap_name ticks volume_ml username pour_time duration
        auth_token spilled shout now).lookup "spilled" = (if spilled then some (FormVal.bool true) else none)
    ∧ (RecordDrink_post_data tap_name ticks volume_ml username pour_time duration
        auth_token spilled shout now).lookup "shout" = (if shout = "" then none else some (FormVal.str shout))
    ∧ (RecordDrink_post_data tap_name ticks volume_ml username pour_time duration
        auth_token spilled shout now).lookup "pour_time" = pour_time.map FormVal.int
    ∧ (RecordDrink_post_data tap_name ticks volume_ml username pour_time duration
        auth_token spilled shout now).lookup "now" = (if pour_time.isSome then some (FormVal.int now) else none)
    ∧ RecordDrink_post_data "kegboard.flow0" 2200 none none none 0 none false "" 0
      = [("tap_name", FormVal.str "kegboard.flow0"), ("ticks", FormVal.int 2200)] := by
  rcases volume_ml with _ | v <;> rcases username with _ | u <;>
    rcases auth_token with _ | t <;> rcases pour_time with _ | pt <;>
    rcases spilled with _ | _ <;> by_cases hd : (0 : ℤ) < duration <;>
    by_cases hs : shout = "" <;>
    simp [RecordDrink_post_data, List.lookup, hd, hs]
